import Mathlib

/-!
Shallow embedding of the starlink-speed-monitor core (src/data_collector.py,
src/database.py, src/app.py) and verification of the specification claims.

Python floats are modelled as `ℚ`, timestamps as `ℕ` (seconds, per the spec
all times are stored and compared at second granularity), SQL NULL as
`Option`, and Python exceptions as `Except`/`Option` results.
-/

namespace Starlink

/-! ## Quality scorer (data_collector.py lines 52-94, duplicated app.py 68-109) -/

/-- Embeds `DataCollector.calculate_quality_score` (data_collector.py 52-94);
the module-level `calculate_quality_score` in app.py 68-109 is the identical
if/elif chain.  Score starts at 100 and is mutated bucket by bucket, then
clamped with `max(0, min(100, score))`. -/
def calculate_quality_score (latency download_mbps upload_mbps obstruction_pct : ℚ)
    (snr_good : Bool) : ℤ :=
  let score : ℤ := 100
  let score := if latency > 100 then score - 30
    else if latency > 75 then score - 20
    else if latency > 50 then score - 10
    else score
  let score := if download_mbps < 10 then score - 25
    else if download_mbps < 25 then score - 15
    else if download_mbps < 50 then score - 5
    else score
  let score := if upload_mbps < 3 then score - 25
    else if upload_mbps < 8 then score - 15
    else if upload_mbps < 15 then score - 5
    else score
  let score := if obstruction_pct > 10 then score - 20
    else if obstruction_pct > 5 then score - 15
    else if obstruction_pct > 1 then score - 10
    else if obstruction_pct > (1/10) then score - 5
    else score
  let score := if snr_good then score else score - 10
  max 0 (min 100 score)

/-- Modelled from the spec words for the refinement part of claim C3: each
bucket is a descending threshold list and only the first (hence highest)
matching penalty applies. -/
def firstPenaltyAbove (rules : List (ℚ × ℤ)) (v : ℚ) : ℤ :=
  (((rules.find? fun r => decide (r.1 < v)).map Prod.snd).getD 0)

/-- Modelled from the spec words for the refinement part of claim C3:
"below" buckets (download/upload), first matching threshold wins. -/
def firstPenaltyBelow (rules : List (ℚ × ℤ)) (v : ℚ) : ℤ :=
  (((rules.find? fun r => decide (v < r.1)).map Prod.snd).getD 0)

/-- Modelled from the spec words (spec §4.1): start at 100, subtract one
penalty per bucket (the single highest matching threshold), clamp to
[0,100]. -/
def refQualityScore (latency download_mbps upload_mbps obstruction_pct : ℚ)
    (snr_good : Bool) : ℤ :=
  let latPen := firstPenaltyAbove [(100, 30), (75, 20), (50, 10)] latency
  let dlPen := firstPenaltyBelow [(10, 25), (25, 15), (50, 5)] download_mbps
  let ulPen := firstPenaltyBelow [(3, 25), (8, 15), (15, 5)] upload_mbps
  let obsPen := firstPenaltyAbove [(10, 20), (5, 15), (1, 10), ((1/10), 5)] obstruction_pct
  let snrPen : ℤ := if snr_good then 0 else 10
  max 0 (min 100 (100 - latPen - dlPen - ulPen - obsPen - snrPen))

/-! ## Outage severity classification (data_collector.py lines 33-37, 198-204) -/

/-- `self.outage_severity_threshold['minor']` (data_collector.py line 34,
commented "# < 1 minute"); never read by the classification logic. -/
def outage_severity_threshold_minor : ℚ := 60

/-- `self.outage_severity_threshold['major']` (line 35, "# 1-5 minutes"). -/
def outage_severity_threshold_major : ℚ := 300

/-- `self.outage_severity_threshold['critical']` (line 36, "# > 30 minutes"). -/
def outage_severity_threshold_critical : ℚ := 1800

/-- Embeds the severity chain of `collect_data_point` (data_collector.py
198-204): `>= critical` → critical, `elif >= major` → major, else minor.
The `minor` threshold (60) is never consulted. -/
def classifySeverity (outage_duration : ℚ) : String :=
  if outage_duration ≥ outage_severity_threshold_critical then "critical"
  else if outage_duration ≥ outage_severity_threshold_major then "major"
  else "minor"

/-! ## Performance grade (app.py lines 282-293) and weekly/monthly summaries -/

/-- Embeds `calculate_performance_grade` (app.py 282-293): first matching
rule of the A/B/C/D chain, else F.  Argument order is the Python signature
(latency, download, upload, quality_score); `upload` is never tested. -/
def calculate_performance_grade (latency download upload quality_score : ℚ) : String :=
  if quality_score ≥ 90 ∧ latency < 30 ∧ download > 50 then "A"
  else if quality_score ≥ 80 ∧ latency < 50 ∧ download > 25 then "B"
  else if quality_score ≥ 70 ∧ latency < 75 ∧ download > 15 then "C"
  else if quality_score ≥ 60 ∧ latency < 100 ∧ download > 10 then "D"
  else "F"

/-- Modelled from the spec words for the refinement part of claim C7: the
ordered rule table (grade, quality floor, latency ceiling, download floor);
the first rule that matches wins, else F. -/
def gradeRules : List (String × ℚ × ℚ × ℚ) :=
  [("A", 90, 30, 50), ("B", 80, 50, 25), ("C", 70, 75, 15), ("D", 60, 100, 10)]

/-- Modelled from the spec words: first-match lookup over `gradeRules`. -/
def refGrade (quality latency download : ℚ) : String :=
  (((gradeRules.find? fun r =>
      decide (quality ≥ r.2.1 ∧ latency < r.2.2.1 ∧ download > r.2.2.2)).map
    Prod.fst).getD "F")

/-- One row of the `daily_stats` table as consumed by the report layer
(app.py 295-344); fields beyond these are not read by the summaries. -/
structure DailyStatRow where
  avg_latency_ms : ℚ
  avg_download_mbps : ℚ
  avg_upload_mbps : ℚ
  avg_quality_score : ℚ
  outage_count : ℤ
  total_outage_minutes : ℚ
deriving Repr, DecidableEq

/-- Sum of a list of rationals. -/
def qsum (l : List ℚ) : ℚ := l.foldr (· + ·) 0

/-- Mean as computed by `calculate_week_summary` / `calculate_month_summary`
(app.py 300-306, 326-332): `sum(...) / total_days`. -/
def dailyMean (f : DailyStatRow → ℚ) (stats : List DailyStatRow) : ℚ :=
  qsum (stats.map f) / (stats.length : ℚ)

/-- Embeds the `performance_grade` field of `calculate_week_summary`
(app.py 295-319): for a nonempty group of daily rows the grade is
recomputed from the unweighted means of the daily averages; an empty group
returns the empty dict (no grade), modelled as `none`.  The rounded display
fields of the summary dict are formatting and are not modelled. -/
def calculate_week_summary_grade (week_stats : List DailyStatRow) : Option String :=
  if week_stats.isEmpty then none
  else some (calculate_performance_grade
    (dailyMean DailyStatRow.avg_latency_ms week_stats)
    (dailyMean DailyStatRow.avg_download_mbps week_stats)
    (dailyMean DailyStatRow.avg_upload_mbps week_stats)
    (dailyMean DailyStatRow.avg_quality_score week_stats))

/-- Embeds the `performance_grade` field of `calculate_month_summary`
(app.py 321-344); the arithmetic is identical to the weekly summary. -/
def calculate_month_summary_grade (month_stats : List DailyStatRow) : Option String :=
  if month_stats.isEmpty then none
  else some (calculate_performance_grade
    (dailyMean DailyStatRow.avg_latency_ms month_stats)
    (dailyMean DailyStatRow.avg_download_mbps month_stats)
    (dailyMean DailyStatRow.avg_upload_mbps month_stats)
    (dailyMean DailyStatRow.avg_quality_score month_stats))

/-! ## Speed-data resolution (app.py lines 111-173) -/

/-- Mean of a list of rationals (`statistics.mean`); only ever applied to
nonempty lists by the embedded code, mirroring Python. -/
def qmean (l : List ℚ) : ℚ := qsum l / (l.length : ℚ)

/-- `max(...)` over a list; only ever applied to nonempty lists by the
embedded code, mirroring Python. -/
def qmax : List ℚ → ℚ
  | [] => 0
  | x :: xs => xs.foldl max x

/-- 1e6, the bps→Mbps divisor and the 1 Mbps activity floor. -/
def mbps : ℚ := 1000000

/-- Python `l[-60:]`. -/
def lastN (n : ℕ) (l : List ℚ) : List ℚ := l.drop (l.length - n)

/-- The fields of the `get_status()` snapshot read by `get_speed_data`. -/
structure StatusSnapshot where
  downlink_throughput_bps : ℚ
  uplink_throughput_bps : ℚ
deriving Repr, DecidableEq

/-- The throughput series of `history_bulk_data(300)[1]` read by
`get_speed_data`. -/
structure BulkHistory where
  downlink_throughput_bps : List ℚ
  uplink_throughput_bps : List ℚ
deriving Repr, DecidableEq

/-- Result dict of `get_speed_data` (app.py); `none` models the final
`return None` (the "no data" marker). -/
structure SpeedResult where
  download_mbps : ℚ
  upload_mbps : ℚ
  peak_download : ℚ
  peak_upload : ℚ
  source_type : String
deriving Repr, DecidableEq

/-- Method 2 of `get_speed_data` (app.py 157-173): instantaneous throughput
from the current status snapshot, or `None` when the status fetch also
fails. -/
def speedFromStatus (status : Option StatusSnapshot) : Option SpeedResult :=
  match status with
  | some st => some ⟨st.downlink_throughput_bps / mbps, st.uplink_throughput_bps / mbps,
      st.downlink_throughput_bps / mbps, st.uplink_throughput_bps / mbps,
      "Current instantaneous"⟩
  | none => none

/-- Embeds `get_speed_data` (app.py 111-173).  `bulk = none` covers both a
failed/empty `history_bulk_data` call and the exception path; `status =
none` covers a failed `get_status()` call. -/
def get_speed_data (bulk : Option BulkHistory) (status : Option StatusSnapshot) :
    Option SpeedResult :=
  match bulk with
  | some data =>
    let downlink_data := data.downlink_throughput_bps
    let uplink_data := data.uplink_throughput_bps
    if downlink_data ≠ [] ∧ uplink_data ≠ [] then
      let active_downlink := downlink_data.filter fun x => decide (x > mbps)
      let active_uplink := uplink_data.filter fun x => decide (x > mbps)
      let recent_downlink := (lastN 60 downlink_data).filter fun x => decide (x > 0)
      let recent_uplink := (lastN 60 uplink_data).filter fun x => decide (x > 0)
      if active_downlink ≠ [] ∧ active_uplink ≠ [] then
        some ⟨qmean active_downlink / mbps, qmean active_uplink / mbps,
          qmax active_downlink / mbps, qmax active_uplink / mbps,
          "Active usage (last 5min, " ++ toString active_downlink.length ++ " samples)"⟩
      else if recent_downlink ≠ [] ∧ recent_uplink ≠ [] then
        some ⟨qmean recent_downlink / mbps, qmean recent_uplink / mbps,
          qmax recent_downlink / mbps, qmax recent_uplink / mbps,
          "Recent activity (" ++ toString recent_downlink.length ++ " samples)"⟩
      else speedFromStatus status
    else speedFromStatus status
  | none => speedFromStatus status

/-! ## Trend query validation (app.py lines 219-241, database.py 388-413) -/

/-- `valid_metrics` (app.py line 228). -/
def valid_metrics : List String :=
  ["download_mbps", "upload_mbps", "latency_ms", "quality_score", "obstruction_pct"]

/-- The query `get_trend_data` would run: which column is aggregated and
which `strftime` bucket key groups the samples. -/
structure TrendQuery where
  metric : String
  group_format : String
deriving Repr, DecidableEq

/-- The grouping-format selection of `get_trend_data` (database.py
392-397): `hour` and `day` are recognised, anything else falls into the
`else:  # minute` branch. -/
def trendGroupFormat (period : String) : String :=
  if period = "hour" then "%Y-%m-%d %H:00:00"
  else if period = "day" then "%Y-%m-%d"
  else "%Y-%m-%d %H:%M:00"

/-- Embeds `StarlinkDatabase.get_trend_data` (database.py 388-413) up to the
SQL execution boundary: the metric is interpolated verbatim and the group
format chosen by `trendGroupFormat`. -/
def get_trend_data (metric period : String) : TrendQuery :=
  ⟨metric, trendGroupFormat period⟩

/-- Embeds the `/api/historical/trends` handler `historical_trends`
(app.py 219-241): the metric is checked against `valid_metrics` and rejected
with a descriptive 400 error; the period is passed through unchecked. -/
def historical_trends (metric period : String) : Except String TrendQuery :=
  if valid_metrics.contains metric then Except.ok (get_trend_data metric period)
  else Except.error ("Invalid metric. Must be one of: " ++ toString valid_metrics)

/-! ## Outage log and collector state machine
(data_collector.py 143-342, database.py 303-313) -/

/-- One row of the `outages` table (database.py 38-45); `end_time = none`
models SQL NULL (an open outage). -/
structure OutageRow where
  start_time : ℕ
  end_time : Option ℕ
  duration_seconds : Option ℤ
  reason : String
deriving Repr, DecidableEq

/-- Embeds `StarlinkDatabase.record_outage` (database.py 303-313):
`duration = int((end_time - start_time).total_seconds())` when an end time
is given (exact at the second granularity of the model), NULL otherwise. -/
def record_outage (outages : List OutageRow) (start_time : ℕ) (end_time : Option ℕ)
    (reason : String) : List OutageRow :=
  outages ++ [⟨start_time, end_time,
    end_time.map (fun e => (e : ℤ) - (start_time : ℤ)), reason⟩]

/-- The methods the `StarlinkDatabase` class defines (database.py).  The
collector's recovery branch (data_collector.py 213) calls
`record_enhanced_outage`, which is not among them, so that attribute lookup
raises `AttributeError` at runtime. -/
def starlinkDatabaseMethods : List String :=
  ["init_database", "get_connection", "insert_metric", "get_metrics",
   "get_hourly_averages", "get_daily_stats", "_calculate_daily_stats",
   "get_performance_comparison", "record_outage", "get_outages",
   "record_performance_event", "get_summary_stats", "cleanup_old_data",
   "get_trend_data", "get_advanced_analytics", "get_performance_insights",
   "insert_speed_test", "get_speed_tests", "get_speed_test_summary",
   "create_speed_test_schedule", "get_speed_test_schedules",
   "update_speed_test_schedule", "get_speed_test_trends"]

/-- The collector's in-memory state plus the two database tables its
outage logic touches.  Metric rows are tracked by their timestamps; the
remaining columns of `insert_metric` do not feed back into any of the
collector's decisions. -/
structure CollectorState where
  running : Bool
  last_connection_state : Bool
  outage_start_time : Option ℕ
  consecutive_failures : ℕ
  db_outages : List OutageRow
  db_metric_timestamps : List ℕ
deriving Repr, DecidableEq

/-- `DataCollector.__init__` (data_collector.py 16-50) followed by
`start()` (318-327): running, connection assumed up, no open outage, no
failures. -/
def initialCollectorState : CollectorState :=
  ⟨true, true, none, 0, [], []⟩

/-- The `try:` body of `collect_data_point` (data_collector.py 145-258).
`status = none` models `starlink_grpc.get_status()` raising;
`Except.error` is an exception escaping to the handler at line 260.  The
recovery branch (lines 194-222) raises: it calls
`self.db.record_enhanced_outage`, an attribute `StarlinkDatabase` does not
define (see `starlinkDatabaseMethods`), before reaching the lines that
would clear `outage_start_time` and update `last_connection_state`. -/
def collect_try (s : CollectorState) (now : ℕ) (status : Option ℚ) :
    Except Unit CollectorState :=
  match status with
  | none => Except.error ()
  | some latency_ms =>
    if ¬(0 < latency_ms ∧ latency_ms < 2000) ∧ s.last_connection_state then
      Except.ok { s with outage_start_time := some now,
                         last_connection_state := false,
                         db_metric_timestamps := s.db_metric_timestamps ++ [now] }
    else if (0 < latency_ms ∧ latency_ms < 2000) ∧ ¬s.last_connection_state ∧
        s.outage_start_time.isSome then
      Except.error ()
    else
      Except.ok { s with
        last_connection_state := decide (0 < latency_ms ∧ latency_ms < 2000),
        db_metric_timestamps := s.db_metric_timestamps ++ [now] }

/-- Embeds `collect_data_point` (data_collector.py 143-266): the body plus
the `except` handler of lines 260-266, which opens an outage only when the
connection was believed up. -/
def collect_data_point (s : CollectorState) (now : ℕ) (status : Option ℚ) :
    CollectorState :=
  match collect_try s now status with
  | Except.ok s2 => s2
  | Except.error _ =>
    if s.last_connection_state then
      { s with outage_start_time := some now, last_connection_state := false }
    else s

/-- One iteration of `_collection_loop` (data_collector.py 272-308).
`collect_data_point` catches its own exceptions, the weather sub-task is
wrapped in its own `try` (281-286) and `_run_performance_analysis` catches
internally (344-390), so the statement of the body that can raise into the
loop's handler is the hourly `db._calculate_daily_stats()` call (line 296);
`rollupRaises` says whether it did.  On an exception the failure counter
increments and, past 5 with no open outage, a down-transition is forced
(300-306); otherwise the `else:` clause resets the counter (307-308). -/
def collection_loop_tick (s : CollectorState) (now : ℕ) (status : Option ℚ)
    (rollupRaises : Bool) : CollectorState :=
  let s1 := collect_data_point s now status
  if rollupRaises then
    let s2 := { s1 with consecutive_failures := s1.consecutive_failures + 1 }
    if s2.consecutive_failures > 5 ∧ s2.outage_start_time = none then
      { s2 with outage_start_time := some now, last_connection_state := false }
    else s2
  else { s1 with consecutive_failures := 0 }

/-- Embeds `stop` (data_collector.py 329-342): a no-op unless running;
otherwise clears the running flag and closes any open outage through
`record_outage` with reason "System shutdown" and the current time. -/
def stopCollector (s : CollectorState) (now : ℕ) : CollectorState :=
  if s.running then
    let s1 := { s with running := false }
    match s1.outage_start_time with
    | some t =>
      { s1 with db_outages := record_outage s1.db_outages t (some now) "System shutdown" }
    | none => s1
  else s

/-- An externally observable event of the collector: one loop iteration
(with its telemetry outcome and whether the hourly rollup raised) or a
`stop()` call, each stamped with the wall-clock second it happens at. -/
inductive CollectorEvent where
  | tick (now : ℕ) (status : Option ℚ) (rollupRaises : Bool)
  | stop (now : ℕ)
deriving Repr, DecidableEq

/-- The wall-clock second of an event. -/
def CollectorEvent.time : CollectorEvent → ℕ
  | tick now _ _ => now
  | stop now => now

/-- One event: loop iterations only happen while the loop is running. -/
def collectorStep (s : CollectorState) : CollectorEvent → CollectorState
  | .tick now status r => if s.running then collection_loop_tick s now status r else s
  | .stop now => stopCollector s now

/-- A whole run of the collector. -/
def runCollector (s : CollectorState) : List CollectorEvent → CollectorState
  | [] => s
  | e :: es => runCollector (collectorStep s e) es

/-- Event times are nondecreasing and bounded below by `t` (wall clock
does not run backwards). -/
def timesFrom : ℕ → List CollectorEvent → Prop
  | _, [] => True
  | t, e :: es => t ≤ e.time ∧ timesFrom e.time es

/-- A closed, internally consistent outage row: finalized end time, end at
or after start, and the stored duration exactly `end - start`. -/
def outageRowClosedOK (r : OutageRow) : Prop :=
  r.end_time ≠ none ∧ ∀ e, r.end_time = some e →
    r.start_time ≤ e ∧ r.duration_seconds = some ((e : ℤ) - (r.start_time : ℤ))

/-! ## Daily-stats rollup (database.py 222-259) -/

/-- `min(...)` over a list; only ever applied to nonempty groups. -/
def qmin : List ℚ → ℚ
  | [] => 0
  | x :: xs => xs.foldl min x

/-- One `metrics` row as read by `_calculate_daily_stats`: the calendar
date key (`date(timestamp)`) plus the aggregated columns. -/
structure MetricSample where
  date : ℕ
  latency_ms : ℚ
  download_mbps : ℚ
  upload_mbps : ℚ
  quality_score : ℚ
  obstruction_pct : ℚ
deriving Repr, DecidableEq

/-- The aggregate SELECT columns of `_calculate_daily_stats` (database.py
228-246) for one date group. -/
structure DailyAgg where
  avg_latency : ℚ
  max_latency : ℚ
  min_latency : ℚ
  avg_download : ℚ
  max_download : ℚ
  min_download : ℚ
  avg_upload : ℚ
  max_upload : ℚ
  min_upload : ℚ
  avg_quality : ℚ
  avg_obstruction : ℚ
  data_points : ℕ
deriving Repr, DecidableEq

/-- The samples of one `GROUP BY date(timestamp)` group. -/
def samplesOn (samples : List MetricSample) (d : ℕ) : List MetricSample :=
  samples.filter fun m => decide (m.date = d)

/-- The aggregates computed for one date group. -/
def statsForDate (samples : List MetricSample) (d : ℕ) : DailyAgg :=
  let g := samplesOn samples d
  ⟨qmean (g.map MetricSample.latency_ms), qmax (g.map MetricSample.latency_ms),
   qmin (g.map MetricSample.latency_ms),
   qmean (g.map MetricSample.download_mbps), qmax (g.map MetricSample.download_mbps),
   qmin (g.map MetricSample.download_mbps),
   qmean (g.map MetricSample.upload_mbps), qmax (g.map MetricSample.upload_mbps),
   qmin (g.map MetricSample.upload_mbps),
   qmean (g.map MetricSample.quality_score), qmean (g.map MetricSample.obstruction_pct),
   g.length⟩

/-- The distinct dates produced by `GROUP BY date(timestamp)` over the
trailing window of samples. -/
def groupDates (samples : List MetricSample) : List ℕ :=
  (samples.map MetricSample.date).dedup

/-- The `daily_stats` table, keyed by its UNIQUE `date` column. -/
def DailyStatsTable : Type := ℕ → Option DailyAgg

/-- `INSERT OR REPLACE INTO daily_stats` for one grouped row (database.py
252-259): the UNIQUE date key makes this a keyed replace. -/
def upsertDailyStat (table : DailyStatsTable) (d : ℕ) (a : DailyAgg) : DailyStatsTable :=
  fun x => if x = d then some a else table x

/-- Embeds `_calculate_daily_stats` (database.py 222-259): group the
window's samples by date, compute each group's aggregates, and upsert one
row per date. -/
def calculate_daily_stats (samples : List MetricSample) (table : DailyStatsTable) :
    DailyStatsTable :=
  (groupDates samples).foldl
    (fun t d => upsertDailyStat t d (statsForDate samples d)) table

/-! ## Speed-consistency analytics (database.py 477-494) -/

/-- A `metrics` row as read by the speed-consistency query. -/
structure TimedMetric where
  timestamp : ℕ
  download_mbps : ℚ
deriving Repr, DecidableEq

/-- The speed-consistency result row of `get_advanced_analytics`
(database.py 477-494); aggregates are NULL (`none`) for an empty group. -/
structure SpeedConsistency where
  avg_download : Option ℚ
  min_download : Option ℚ
  max_download : Option ℚ
  download_range : Option ℚ
  consistency_rating : String
deriving Repr, DecidableEq

/-- The download values feeding the speed-consistency SELECT:
`WHERE timestamp >= start AND download_mbps > 0` (database.py 491). -/
def consistencyRows (rows : List TimedMetric) (start : ℕ) : List ℚ :=
  (rows.filter fun r => decide (start ≤ r.timestamp) && decide (0 < r.download_mbps)).map
    TimedMetric.download_mbps

/-- Embeds the speed-consistency query (database.py 477-494).  SQL
aggregates over an empty group are NULL, and a CASE whose WHEN conditions
compare NULL falls through to the ELSE branch ("inconsistent"). -/
def speed_consistency (rows : List TimedMetric) (start : ℕ) : SpeedConsistency :=
  match consistencyRows rows start with
  | [] => ⟨none, none, none, none, "inconsistent"⟩
  | x :: xs =>
    let mx := qmax (x :: xs)
    let mn := qmin (x :: xs)
    ⟨some (qmean (x :: xs)), some mn, some mx, some (mx - mn),
      if mx - mn < 10 then "very_consistent"
      else if mx - mn < 25 then "consistent"
      else if mx - mn < 50 then "moderate"
      else "inconsistent"⟩

/-! ## Theorems -/

/-- Sequential score mutation equals subtracting a single bucket penalty
(three-threshold chain). -/
lemma sub_ifchain3 (p1 p2 p3 : Prop) [Decidable p1] [Decidable p2] [Decidable p3]
    (s a b c : ℤ) :
    (if p1 then s - a else if p2 then s - b else if p3 then s - c else s) =
    s - (if p1 then a else if p2 then b else if p3 then c else 0) := by
  split_ifs <;> omega

/-- Sequential score mutation equals subtracting a single bucket penalty
(four-threshold chain). -/
lemma sub_ifchain4 (p1 p2 p3 p4 : Prop)
    [Decidable p1] [Decidable p2] [Decidable p3] [Decidable p4] (s a b c d : ℤ) :
    (if p1 then s - a else if p2 then s - b else if p3 then s - c else
      if p4 then s - d else s) =
    s - (if p1 then a else if p2 then b else if p3 then c else if p4 then d else 0) := by
  split_ifs <;> omega

/-- The SNR step as a penalty subtraction. -/
lemma sub_ifbool (p : Prop) [Decidable p] (s d : ℤ) :
    (if p then s else s - d) = s - (if p then 0 else d) := by
  split_ifs <;> omega

/-- `firstPenaltyAbove` on a three-rule table is the descending if-chain. -/
lemma firstPenaltyAbove3 (t1 t2 t3 : ℚ) (a b c : ℤ) (v : ℚ) :
    firstPenaltyAbove [(t1, a), (t2, b), (t3, c)] v =
    (if t1 < v then a else if t2 < v then b else if t3 < v then c else 0) := by
  simp only [firstPenaltyAbove, List.find?]
  by_cases h1 : t1 < v <;> by_cases h2 : t2 < v <;> by_cases h3 : t3 < v <;>
    simp [h1, h2, h3]

/-- `firstPenaltyAbove` on a four-rule table is the descending if-chain. -/
lemma firstPenaltyAbove4 (t1 t2 t3 t4 : ℚ) (a b c d : ℤ) (v : ℚ) :
    firstPenaltyAbove [(t1, a), (t2, b), (t3, c), (t4, d)] v =
    (if t1 < v then a else if t2 < v then b else if t3 < v then c else
      if t4 < v then d else 0) := by
  simp only [firstPenaltyAbove, List.find?]
  by_cases h1 : t1 < v <;> by_cases h2 : t2 < v <;> by_cases h3 : t3 < v <;>
    by_cases h4 : t4 < v <;> simp [h1, h2, h3, h4]

/-- `firstPenaltyBelow` on a three-rule table is the ascending if-chain. -/
lemma firstPenaltyBelow3 (t1 t2 t3 : ℚ) (a b c : ℤ) (v : ℚ) :
    firstPenaltyBelow [(t1, a), (t2, b), (t3, c)] v =
    (if v < t1 then a else if v < t2 then b else if v < t3 then c else 0) := by
  simp only [firstPenaltyBelow, List.find?]
  by_cases h1 : v < t1 <;> by_cases h2 : v < t2 <;> by_cases h3 : v < t3 <;>
    simp [h1, h2, h3]

/-- C3: the quality scorer equals the spec's reference definition (start at
100, subtract per bucket only the single highest matching penalty, clamp to
[0,100]); the result is always in [0,100]; `score(20,100,20,0,true) = 100`
and `score(150,5,1,15,false) = 0`. -/
theorem quality_score_matches_spec :
    (∀ l d u o s, calculate_quality_score l d u o s = refQualityScore l d u o s) ∧
    (∀ l d u o s, 0 ≤ calculate_quality_score l d u o s ∧
      calculate_quality_score l d u o s ≤ 100) ∧
    calculate_quality_score 20 100 20 0 true = 100 ∧
    calculate_quality_score 150 5 1 15 false = 0 := by
  refine ⟨?_, ?_, by norm_num [calculate_quality_score], by norm_num [calculate_quality_score]⟩
  · intro l d u o s
    unfold calculate_quality_score refQualityScore
    dsimp only
    rw [sub_ifchain3, sub_ifchain3, sub_ifchain3, sub_ifchain4, sub_ifbool,
      firstPenaltyAbove3, firstPenaltyBelow3, firstPenaltyBelow3, firstPenaltyAbove4]
  · intro l d u o s
    unfold calculate_quality_score
    refine ⟨le_max_left _ _, max_le (by norm_num) ?_⟩
    exact min_le_left _ _

/-- C2 (code behaviour at the failing inputs): the severity classifier
compares the duration against the `major` (300) and `critical` (1800)
thresholds only, so a 60-second — and even a 299-second — outage is
classified "minor", while the code's own threshold table documents minor as
"< 1 minute" and major as "1-5 minutes". -/
theorem severity_code_values :
    classifySeverity 59 = "minor" ∧ classifySeverity 60 = "minor" ∧
    classifySeverity 299 = "minor" ∧ classifySeverity 300 = "major" ∧
    classifySeverity 1799 = "major" ∧ classifySeverity 1800 = "critical" := by
  decide

/-- C7: the grade function checks the A/B/C/D rules in order and returns the
first match, else F (i.e. it equals the first-match lookup over the spec's
rule table); the three concrete examples hold; the weekly and monthly
summaries recompute this same grade from the unweighted mean of the group's
daily averages. -/
theorem performance_grade_spec :
    (∀ latency download upload quality,
      calculate_performance_grade latency download upload quality =
        refGrade quality latency download) ∧
    calculate_performance_grade 20 60 0 95 = "A" ∧
    calculate_performance_grade 40 30 0 85 = "B" ∧
    calculate_performance_grade 200 2 0 30 = "F" ∧
    (∀ ws : List DailyStatRow, ws ≠ [] →
      calculate_week_summary_grade ws = some (calculate_performance_grade
        (dailyMean DailyStatRow.avg_latency_ms ws)
        (dailyMean DailyStatRow.avg_download_mbps ws)
        (dailyMean DailyStatRow.avg_upload_mbps ws)
        (dailyMean DailyStatRow.avg_quality_score ws))) ∧
    (∀ ms : List DailyStatRow, ms ≠ [] →
      calculate_month_summary_grade ms = some (calculate_performance_grade
        (dailyMean DailyStatRow.avg_latency_ms ms)
        (dailyMean DailyStatRow.avg_download_mbps ms)
        (dailyMean DailyStatRow.avg_upload_mbps ms)
        (dailyMean DailyStatRow.avg_quality_score ms))) := by
  refine ⟨?_, by decide, by decide, by decide, ?_, ?_⟩
  · intro l d u q
    simp only [calculate_performance_grade, refGrade, gradeRules, List.find?]
    by_cases h1 : q ≥ 90 ∧ l < 30 ∧ d > 50 <;>
      by_cases h2 : q ≥ 80 ∧ l < 50 ∧ d > 25 <;>
      by_cases h3 : q ≥ 70 ∧ l < 75 ∧ d > 15 <;>
      by_cases h4 : q ≥ 60 ∧ l < 100 ∧ d > 10 <;>
      simp [h1, h2, h3, h4]
  · intro ws h
    simp [calculate_week_summary_grade, h]
  · intro ms h
    simp [calculate_month_summary_grade, h]

/-- Witness for C7: instantiates the weekly/monthly clauses on a concrete
singleton group of daily rows. -/
theorem performance_grade_spec_witness :
    ([(⟨20, 60, 10, 95, 0, 0⟩ : DailyStatRow)] ≠ []) ∧
    calculate_week_summary_grade [(⟨20, 60, 10, 95, 0, 0⟩ : DailyStatRow)] = some "A" ∧
    calculate_month_summary_grade [(⟨20, 60, 10, 95, 0, 0⟩ : DailyStatRow)] = some "A" := by
  have hne : ([(⟨20, 60, 10, 95, 0, 0⟩ : DailyStatRow)] ≠ []) := by simp
  have hw := performance_grade_spec.2.2.2.2.1 [(⟨20, 60, 10, 95, 0, 0⟩ : DailyStatRow)] hne
  have hm := performance_grade_spec.2.2.2.2.2 [(⟨20, 60, 10, 95, 0, 0⟩ : DailyStatRow)] hne
  refine ⟨hne, ?_, ?_⟩
  · rw [hw]; norm_num [dailyMean, qsum, calculate_performance_grade]
  · rw [hm]; norm_num [dailyMean, qsum, calculate_performance_grade]

/-- Folding `max` over two leading elements is folding from their max. -/
lemma qmax_cons_cons (a b : ℚ) (bs : List ℚ) :
    qmax (a :: b :: bs) = qmax (max a b :: bs) := rfl

/-- `qmax` of a nonempty list is one of its elements. -/
lemma qmax_mem : ∀ (as : List ℚ) (a : ℚ), qmax (a :: as) ∈ a :: as
  | [], a => by simp [qmax]
  | b :: bs, a => by
    rw [qmax_cons_cons]
    rcases List.mem_cons.mp (qmax_mem bs (max a b)) with h | h
    · rw [h]; rcases max_choice a b with hm | hm <;> rw [hm] <;> simp
    · exact List.mem_cons_of_mem _ (List.mem_cons_of_mem _ h)

/-- `qmax` of a nonempty list bounds every element. -/
lemma qmax_le : ∀ (as : List ℚ) (a x : ℚ), x ∈ a :: as → x ≤ qmax (a :: as)
  | [], a, x, hx => by simp_all [qmax]
  | b :: bs, a, x, hx => by
    rw [qmax_cons_cons]
    rcases List.mem_cons.mp hx with h | h
    · rw [h]
      exact le_trans (le_max_left a b)
        (qmax_le bs (max a b) _ (List.mem_cons_self _ _))
    · rcases List.mem_cons.mp h with h2 | h2
      · rw [h2]
        exact le_trans (le_max_right a b)
          (qmax_le bs (max a b) _ (List.mem_cons_self _ _))
      · exact qmax_le bs (max a b) x (List.mem_cons_of_mem _ h2)

/-- The `peak` figures are true maxima: for a nonempty list `qmax` is an
element and an upper bound. -/
lemma qmax_spec (l : List ℚ) (h : l ≠ []) : qmax l ∈ l ∧ ∀ x ∈ l, x ≤ qmax l := by
  match l with
  | [] => exact absurd rfl h
  | a :: as => exact ⟨qmax_mem as a, fun x hx => qmax_le as a x hx⟩

/-- C4: the speed-data resolution follows the ordered fallback: mean+peak of
the >1 Mbps subset when that subset is nonempty in both directions; else
mean+peak of the non-zero samples among the last 60 history points when
those exist in both directions; else the instantaneous status throughput;
else the explicit `None` marker. -/
theorem speed_data_fallback :
    (∀ dl ul st,
      dl.filter (fun x => decide (x > mbps)) ≠ [] →
      ul.filter (fun x => decide (x > mbps)) ≠ [] →
      get_speed_data (some ⟨dl, ul⟩) st = some
        ⟨qmean (dl.filter fun x => decide (x > mbps)) / mbps,
         qmean (ul.filter fun x => decide (x > mbps)) / mbps,
         qmax (dl.filter fun x => decide (x > mbps)) / mbps,
         qmax (ul.filter fun x => decide (x > mbps)) / mbps,
         "Active usage (last 5min, " ++
           toString (dl.filter fun x => decide (x > mbps)).length ++ " samples)"⟩) ∧
    (∀ dl ul st,
      (dl.filter (fun x => decide (x > mbps)) = [] ∨
        ul.filter (fun x => decide (x > mbps)) = []) →
      (lastN 60 dl).filter (fun x => decide (x > 0)) ≠ [] →
      (lastN 60 ul).filter (fun x => decide (x > 0)) ≠ [] →
      get_speed_data (some ⟨dl, ul⟩) st = some
        ⟨qmean ((lastN 60 dl).filter fun x => decide (x > 0)) / mbps,
         qmean ((lastN 60 ul).filter fun x => decide (x > 0)) / mbps,
         qmax ((lastN 60 dl).filter fun x => decide (x > 0)) / mbps,
         qmax ((lastN 60 ul).filter fun x => decide (x > 0)) / mbps,
         "Recent activity (" ++
           toString ((lastN 60 dl).filter fun x => decide (x > 0)).length ++ " samples)"⟩) ∧
    (∀ dl ul st,
      (dl.filter (fun x => decide (x > mbps)) = [] ∨
        ul.filter (fun x => decide (x > mbps)) = []) →
      ((lastN 60 dl).filter (fun x => decide (x > 0)) = [] ∨
        (lastN 60 ul).filter (fun x => decide (x > 0)) = []) →
      get_speed_data (some ⟨dl, ul⟩) st = speedFromStatus st) ∧
    (∀ d u, get_speed_data none (some ⟨d, u⟩) =
      some ⟨d / mbps, u / mbps, d / mbps, u / mbps, "Current instantaneous"⟩) ∧
    get_speed_data none none = none := by
  refine ⟨?_, ?_, ?_, ?_, rfl⟩
  · intro dl ul st h1 h2
    have hdl : dl ≠ [] := by rintro rfl; simp at h1
    have hul : ul ≠ [] := by rintro rfl; simp at h2
    simp only [get_speed_data]
    rw [if_pos ⟨hdl, hul⟩, if_pos ⟨h1, h2⟩]
  · intro dl ul st h0 h1 h2
    have hdl : dl ≠ [] := by
      rintro rfl; simp [lastN] at h1
    have hul : ul ≠ [] := by
      rintro rfl; simp [lastN] at h2
    have hneg : ¬(dl.filter (fun x => decide (x > mbps)) ≠ [] ∧
        ul.filter (fun x => decide (x > mbps)) ≠ []) := by
      rcases h0 with h0 | h0 <;> simp [h0]
    simp only [get_speed_data]
    rw [if_pos ⟨hdl, hul⟩, if_neg hneg, if_pos ⟨h1, h2⟩]
  · intro dl ul st h0 hr
    by_cases hb : dl ≠ [] ∧ ul ≠ []
    · have hneg : ¬(dl.filter (fun x => decide (x > mbps)) ≠ [] ∧
          ul.filter (fun x => decide (x > mbps)) ≠ []) := by
        rcases h0 with h0 | h0 <;> simp [h0]
      have hnegr : ¬((lastN 60 dl).filter (fun x => decide (x > 0)) ≠ [] ∧
          (lastN 60 ul).filter (fun x => decide (x > 0)) ≠ []) := by
        rcases hr with hr | hr <;> simp [hr]
      simp only [get_speed_data]
      rw [if_pos hb, if_neg hneg, if_neg hnegr]
    · simp only [get_speed_data]
      rw [if_neg hb]
  · intro d u; rfl

/-- Witness for C4: concrete histories exercising the active branch, the
recent branch, the status fallback and the no-data marker. -/
theorem speed_data_fallback_witness :
    (([(2000000 : ℚ), 500]).filter (fun x => decide (x > mbps)) ≠ []) ∧
    (([(3000000 : ℚ)]).filter (fun x => decide (x > mbps)) ≠ []) ∧
    get_speed_data (some ⟨[2000000, 500], [3000000]⟩) none =
      some ⟨2, 3, 2, 3, "Active usage (last 5min, 1 samples)"⟩ ∧
    get_speed_data (some ⟨[500], [700]⟩) none =
      some ⟨1/2000, 7/10000, 1/2000, 7/10000, "Recent activity (1 samples)"⟩ ∧
    get_speed_data (some ⟨[0], [0]⟩) (some ⟨4000000, 1000000⟩) =
      some ⟨4, 1, 4, 1, "Current instantaneous"⟩ ∧
    get_speed_data none none = none := by
  have ha : (([(2000000 : ℚ), 500]).filter (fun x => decide (x > mbps)) ≠ []) := by
    norm_num [mbps]
  have hb : (([(3000000 : ℚ)]).filter (fun x => decide (x > mbps)) ≠ []) := by
    norm_num [mbps]
  refine ⟨ha, hb, ?_, ?_, ?_, speed_data_fallback.2.2.2.2⟩
  · rw [speed_data_fallback.1 [2000000, 500] [3000000] none ha hb]
    norm_num [mbps, qmean, qsum, qmax, lastN]
    rfl
  · have h0 : (([(500 : ℚ)]).filter (fun x => decide (x > mbps)) = []) ∨
        (([(700 : ℚ)]).filter (fun x => decide (x > mbps)) = []) := by
      left; norm_num [mbps]
    have h1 : ((lastN 60 [(500 : ℚ)]).filter (fun x => decide (x > 0)) ≠ []) := by
      norm_num [lastN]
    have h2 : ((lastN 60 [(700 : ℚ)]).filter (fun x => decide (x > 0)) ≠ []) := by
      norm_num [lastN]
    rw [speed_data_fallback.2.1 [500] [700] none h0 h1 h2]
    norm_num [mbps, qmean, qsum, qmax, lastN]
    rfl
  · have h0 : (([(0 : ℚ)]).filter (fun x => decide (x > mbps)) = []) ∨
        (([(0 : ℚ)]).filter (fun x => decide (x > mbps)) = []) := by
      left; norm_num [mbps]
    have hr : ((lastN 60 [(0 : ℚ)]).filter (fun x => decide (x > 0)) = []) ∨
        ((lastN 60 [(0 : ℚ)]).filter (fun x => decide (x > 0)) = []) := by
      left; norm_num [lastN]
    rw [speed_data_fallback.2.2.1 [0] [0] (some ⟨4000000, 1000000⟩) h0 hr]
    norm_num [speedFromStatus, mbps]

/-- C8 counterexample: the unrecognized period value "weekly" is not
rejected — the trends endpoint answers 200 and the query silently uses the
minute grouping format. -/
theorem trend_unknown_period_not_rejected :
    historical_trends "download_mbps" "weekly" =
      Except.ok ⟨"download_mbps", "%Y-%m-%d %H:%M:00"⟩ := by
  rfl

/-- C8 (amended): an unknown metric name is rejected with a descriptive
error and a known metric is never substituted; but the period is passed
through unchecked — any value other than "hour" or "day" silently selects
the minute grouping. -/
theorem trend_query_validation :
    (∀ metric period, metric ∉ valid_metrics →
      historical_trends metric period =
        Except.error ("Invalid metric. Must be one of: " ++ toString valid_metrics)) ∧
    (∀ metric period, metric ∈ valid_metrics →
      historical_trends metric period = Except.ok ⟨metric, trendGroupFormat period⟩) ∧
    (∀ period, period ≠ "hour" → period ≠ "day" →
      trendGroupFormat period = "%Y-%m-%d %H:%M:00") := by
  refine ⟨?_, ?_, ?_⟩
  · intro metric period h
    simp [historical_trends, h]
  · intro metric period h
    simp [historical_trends, get_trend_data, h]
  · intro period h1 h2
    simp [trendGroupFormat, h1, h2]

/-- Witness for C8 (amended): concrete unknown metric, known metric, and
unknown period. -/
theorem trend_query_validation_witness :
    (("bogus" : String) ∉ valid_metrics) ∧
    historical_trends "bogus" "hour" =
      Except.error ("Invalid metric. Must be one of: " ++ toString valid_metrics) ∧
    (("latency_ms" : String) ∈ valid_metrics) ∧
    historical_trends "latency_ms" "weekly" =
      Except.ok ⟨"latency_ms", trendGroupFormat "weekly"⟩ ∧
    trendGroupFormat "weekly" = "%Y-%m-%d %H:%M:00" := by
  have h1 : ("bogus" : String) ∉ valid_metrics := by decide
  have h2 : ("latency_ms" : String) ∈ valid_metrics := by decide
  exact ⟨h1, trend_query_validation.1 "bogus" "hour" h1, h2,
    trend_query_validation.2.1 "latency_ms" "weekly" h2,
    trend_query_validation.2.2 "weekly" (by decide) (by decide)⟩

/-- C1 (code behaviour at the failing input): on the 3-tick run
[30ms, fetch-failure, 25ms] the outage is opened on tick 2
(`outage_start_time` = tick-2 time, connection marked down), but on tick 3
the recovery branch calls `record_enhanced_outage` — a method
`StarlinkDatabase` does not define — so the `AttributeError` is swallowed
by the handler of `collect_data_point`: no OutageRecord is persisted,
the in-memory outage state is NOT cleared and the connection stays DOWN. -/
theorem outage_recovery_never_persists :
    "record_enhanced_outage" ∉ starlinkDatabaseMethods ∧
    (runCollector initialCollectorState
      [CollectorEvent.tick 60 (some 30) false,
       CollectorEvent.tick 120 none false]).outage_start_time = some 120 ∧
    (runCollector initialCollectorState
      [CollectorEvent.tick 60 (some 30) false,
       CollectorEvent.tick 120 none false]).last_connection_state = false ∧
    runCollector initialCollectorState
      [CollectorEvent.tick 60 (some 30) false,
       CollectorEvent.tick 120 none false,
       CollectorEvent.tick 180 (some 25) false] =
      { running := true, last_connection_state := false,
        outage_start_time := some 120, consecutive_failures := 0,
        db_outages := [], db_metric_timestamps := [60] } := by
  refine ⟨by decide, by decide, by decide, by decide⟩

/-- C9 counterexample: a telemetry fetch failure during
`collect_data_point` is caught inside it, so the loop body does not raise
and the `else:` clause RESETS the consecutive-failure counter to 0 instead
of incrementing it (here from 3 to 0, not 4). -/
theorem fetch_failure_resets_failure_counter :
    (collection_loop_tick
      { initialCollectorState with consecutive_failures := 3 }
      100 none false).consecutive_failures = 0 := by
  decide

/-- C9 (amended): the consecutive-failure counter increments only when an
exception escapes the loop body outside `collect_data_point` (the hourly
rollup call); a cycle whose exceptions are all handled inside
`collect_data_point` — including a telemetry fetch failure — resets it to
0.  `collect_data_point` itself never touches the counter.  When an
escaped exception pushes the counter above 5 while no outage is open, the
collector sets the outage start to now and marks the connection down. -/
theorem consecutive_failures_semantics :
    (∀ s now status,
      (collection_loop_tick s now status false).consecutive_failures = 0) ∧
    (∀ s now status,
      (collect_data_point s now status).consecutive_failures =
        s.consecutive_failures) ∧
    (∀ s now status,
      (collection_loop_tick s now status true).consecutive_failures =
        s.consecutive_failures + 1) ∧
    (∀ s now status, s.consecutive_failures + 1 > 5 →
      (collect_data_point s now status).outage_start_time = none →
      (collection_loop_tick s now status true).outage_start_time = some now ∧
      (collection_loop_tick s now status true).last_connection_state = false) := by
  have hcdp : ∀ s now status,
      (collect_data_point s now status).consecutive_failures =
        s.consecutive_failures := by
    intro s now status
    unfold collect_data_point collect_try
    cases status <;> dsimp only <;> split_ifs <;> rfl
  refine ⟨?_, hcdp, ?_, ?_⟩
  · intro s now status
    simp [collection_loop_tick]
  · intro s now status
    simp only [collection_loop_tick]
    split_ifs <;> simp [hcdp]
  · intro s now status h5 hopen
    simp only [collection_loop_tick, if_true]
    rw [if_pos ⟨by simpa [hcdp] using h5, by simpa using hopen⟩]
    exact ⟨rfl, rfl⟩

/-- Witness for C9 (amended): a healthy tick leaves no open outage, and a
rollup exception on a state with 5 prior failures forces the
down-transition at the tick's time. -/
theorem consecutive_failures_semantics_witness :
    (5 + 1 > 5) ∧
    (collect_data_point
      { initialCollectorState with consecutive_failures := 5 }
      7 (some 100)).outage_start_time = none ∧
    (collection_loop_tick
      { initialCollectorState with consecutive_failures := 5 }
      7 (some 100) true).outage_start_time = some 7 ∧
    (collection_loop_tick
      { initialCollectorState with consecutive_failures := 5 }
      7 (some 100) true).last_connection_state = false := by
  have h := consecutive_failures_semantics.2.2.2
    { initialCollectorState with consecutive_failures := 5 }
    7 (some 100) (by decide) (by decide)
  exact ⟨by decide, by decide, h.1, h.2⟩

/-- Pointwise description of the rollup fold: dates in the list get the
freshly computed aggregate, every other date keeps its old row. -/
lemma foldl_upsert_apply (samples : List MetricSample) :
    ∀ (ds : List ℕ) (table : DailyStatsTable) (x : ℕ),
      (ds.foldl (fun t d => upsertDailyStat t d (statsForDate samples d)) table) x =
        if x ∈ ds then some (statsForDate samples x) else table x
  | [], table, x => by simp
  | d :: ds, table, x => by
    rw [List.foldl_cons, foldl_upsert_apply samples ds _ x]
    by_cases h : x ∈ ds
    · simp [h]
    · by_cases h2 : x = d
      · subst h2; simp [h, upsertDailyStat]
      · simp [h, h2, upsertDailyStat]

/-- Pointwise description of `calculate_daily_stats`. -/
lemma calculate_daily_stats_apply (samples : List MetricSample)
    (table : DailyStatsTable) (x : ℕ) :
    calculate_daily_stats samples table x =
      if x ∈ groupDates samples then some (statsForDate samples x) else table x :=
  foldl_upsert_apply samples (groupDates samples) table x

/-- C6: the daily-stats rollup is idempotent — recomputing over the same
samples replaces each date's row with the same aggregates, so running it
twice (or any positive number of times) yields the identical table, and a
recomputed date's row is exactly that date's aggregates. -/
theorem daily_stats_rollup_idempotent :
    (∀ samples table,
      calculate_daily_stats samples (calculate_daily_stats samples table) =
        calculate_daily_stats samples table) ∧
    (∀ samples table (n : ℕ),
      (calculate_daily_stats samples)^[n + 1] table =
        calculate_daily_stats samples table) ∧
    (∀ samples table d, d ∈ groupDates samples →
      calculate_daily_stats samples table d = some (statsForDate samples d)) := by
  have hidem : ∀ samples table,
      calculate_daily_stats samples (calculate_daily_stats samples table) =
        calculate_daily_stats samples table := by
    intro samples table
    funext x
    rw [calculate_daily_stats_apply, calculate_daily_stats_apply]
    by_cases h : x ∈ groupDates samples <;> simp [h]
  refine ⟨hidem, ?_, ?_⟩
  · intro samples table n
    induction n with
    | zero => simp
    | succ m ih =>
      rw [Function.iterate_succ_apply', ih, hidem]
  · intro samples table d h
    rw [calculate_daily_stats_apply, if_pos h]

/-- Witness for C6: a concrete one-sample table where date 1 is grouped. -/
theorem daily_stats_rollup_idempotent_witness :
    ((1 : ℕ) ∈ groupDates [⟨1, 10, 20, 5, 90, 0⟩]) ∧
    calculate_daily_stats [⟨1, 10, 20, 5, 90, 0⟩] (fun _ => none) 1 =
      some (statsForDate [⟨1, 10, 20, 5, 90, 0⟩] 1) := by
  have h : (1 : ℕ) ∈ groupDates [⟨1, 10, 20, 5, 90, 0⟩] := by
    simp [groupDates]
  exact ⟨h, daily_stats_rollup_idempotent.2.2 [⟨1, 10, 20, 5, 90, 0⟩] (fun _ => none) 1 h⟩

/-- C10: the speed-consistency analytics are computed only over samples
with strictly positive download — rows with zero (or negative) download
never change the result — and a window whose samples all have zero
download feeds the aggregation an empty set (all aggregates NULL). -/
theorem speed_consistency_excludes_zero_download :
    (∀ rows start,
      speed_consistency rows start =
        speed_consistency (rows.filter fun r => decide (0 < r.download_mbps)) start) ∧
    (∀ rows start, (∀ r ∈ rows, r.download_mbps = 0) →
      consistencyRows rows start = [] ∧
      speed_consistency rows start = ⟨none, none, none, none, "inconsistent"⟩) := by
  have hrows : ∀ (rows : List TimedMetric) (start : ℕ),
      consistencyRows (rows.filter fun r => decide (0 < r.download_mbps)) start =
        consistencyRows rows start := by
    intro rows start
    simp only [consistencyRows, List.filter_filter]
    congr 1
    apply List.filter_congr
    intro r _
    by_cases h1 : start ≤ r.timestamp <;> by_cases h2 : 0 < r.download_mbps <;>
      simp [h1, h2]
  have hempty : ∀ (rows : List TimedMetric) (start : ℕ),
      (∀ r ∈ rows, r.download_mbps = 0) → consistencyRows rows start = [] := by
    intro rows start h
    simp only [consistencyRows, List.map_eq_nil_iff]
    apply List.filter_eq_nil_iff.mpr
    intro r hr
    simp [h r hr]
  refine ⟨?_, ?_⟩
  · intro rows start
    simp only [speed_consistency, hrows]
  · intro rows start h
    refine ⟨hempty rows start h, ?_⟩
    simp only [speed_consistency, hempty rows start h]

/-- Witness for C10: a window whose only sample has zero download yields
the empty aggregation. -/
theorem speed_consistency_excludes_zero_download_witness :
    (∀ r ∈ [(⟨5, 0⟩ : TimedMetric)], r.download_mbps = 0) ∧
    consistencyRows [(⟨5, 0⟩ : TimedMetric)] 0 = [] ∧
    speed_consistency [(⟨5, 0⟩ : TimedMetric)] 0 =
      ⟨none, none, none, none, "inconsistent"⟩ := by
  have h : ∀ r ∈ [(⟨5, 0⟩ : TimedMetric)], r.download_mbps = 0 := by
    intro r hr
    simp only [List.mem_singleton] at hr
    rw [hr]
  have h2 := speed_consistency_excludes_zero_download.2 [(⟨5, 0⟩ : TimedMetric)] 0 h
  exact ⟨h, h2.1, h2.2⟩

/-- `collect_data_point` never writes the outage table, and either leaves
the open-outage slot alone or stamps it with the current tick's time. -/
lemma collect_data_point_effects (s : CollectorState) (now : ℕ) (status : Option ℚ) :
    (collect_data_point s now status).db_outages = s.db_outages ∧
    ((collect_data_point s now status).outage_start_time = s.outage_start_time ∨
      (collect_data_point s now status).outage_start_time = some now) := by
  unfold collect_data_point collect_try
  cases status <;> dsimp only <;> split_ifs <;> simp

/-- A loop iteration never writes the outage table, and either leaves the
open-outage slot alone or stamps it with the current tick's time. -/
lemma collection_loop_tick_effects (s : CollectorState) (now : ℕ)
    (status : Option ℚ) (r : Bool) :
    (collection_loop_tick s now status r).db_outages = s.db_outages ∧
    ((collection_loop_tick s now status r).outage_start_time = s.outage_start_time ∨
      (collection_loop_tick s now status r).outage_start_time = some now) := by
  obtain ⟨hdb, hos⟩ := collect_data_point_effects s now status
  unfold collection_loop_tick
  dsimp only
  split_ifs <;> simp_all

/-- `stop` leaves the open-outage slot alone, and either leaves the outage
table alone or appends the one closed shutdown row. -/
lemma stopCollector_effects (s : CollectorState) (now : ℕ) :
    (stopCollector s now).outage_start_time = s.outage_start_time ∧
    ((stopCollector s now).db_outages = s.db_outages ∨
      ∃ u, s.outage_start_time = some u ∧
        (stopCollector s now).db_outages = s.db_outages ++
          [⟨u, some now, some ((now : ℤ) - (u : ℤ)), "System shutdown"⟩]) := by
  unfold stopCollector
  split_ifs with hr
  · cases hos : s.outage_start_time with
    | none => simp
    | some u =>
      refine ⟨rfl, Or.inr ⟨u, rfl, ?_⟩⟩
      simp [record_outage]
  · simp

/-- One collector event preserves the time bound on the open-outage slot
and the well-formedness of every outage row. -/
lemma collectorStep_inv (s : CollectorState) (e : CollectorEvent) (t : ℕ)
    (hstart : ∀ u, s.outage_start_time = some u → u ≤ t) (ht : t ≤ e.time)
    (hrows : ∀ r ∈ s.db_outages, outageRowClosedOK r) :
    (∀ u, (collectorStep s e).outage_start_time = some u → u ≤ e.time) ∧
    (∀ r ∈ (collectorStep s e).db_outages, outageRowClosedOK r) := by
  cases e with
  | tick now status rr =>
    simp only [collectorStep, CollectorEvent.time] at *
    by_cases hr : s.running
    · rw [if_pos hr]
      obtain ⟨hdb, hos⟩ := collection_loop_tick_effects s now status rr
      constructor
      · intro u hu
        rcases hos with h | h
        · exact le_trans (hstart u (h ▸ hu)) ht
        · rw [h] at hu
          injection hu with hu
          omega
      · intro r hrr
        exact hrows r (hdb ▸ hrr)
    · rw [if_neg hr]
      exact ⟨fun u hu => le_trans (hstart u hu) ht, hrows⟩
  | stop now =>
    simp only [collectorStep, CollectorEvent.time] at *
    obtain ⟨hos, hdb⟩ := stopCollector_effects s now
    constructor
    · intro u hu
      exact le_trans (hstart u (hos ▸ hu)) ht
    · intro r hrr
      rcases hdb with h | ⟨u, hu, h⟩
      · exact hrows r (h ▸ hrr)
      · rw [h] at hrr
        rcases List.mem_append.mp hrr with h2 | h2
        · exact hrows r h2
        · have hr : r = ⟨u, some now, some ((now : ℤ) - (u : ℤ)), "System shutdown"⟩ := by
            simpa using h2

          refine ⟨by rw [hr]; simp, ?_⟩
          intro e he
          rw [hr] at he
          injection he with he
          subst he
          refine ⟨?_, by rw [hr]⟩
          have := hstart u hu
          have hre : r.start_time = u := by rw [hr]
          omega

/-- The row invariant holds along any time-monotone run. -/
lemma runCollector_inv :
    ∀ (events : List CollectorEvent) (s : CollectorState) (t : ℕ),
      timesFrom t events →
      (∀ u, s.outage_start_time = some u → u ≤ t) →
      (∀ r ∈ s.db_outages, outageRowClosedOK r) →
      ∀ r ∈ (runCollector s events).db_outages, outageRowClosedOK r
  | [], s, t, _, _, hrows => hrows
  | e :: es, s, t, htf, hstart, hrows => by
    obtain ⟨hte, hrest⟩ := htf
    obtain ⟨h1, h2⟩ := collectorStep_inv s e t hstart hte hrows
    exact runCollector_inv es (collectorStep s e) e.time hrest h1 h2

/-- C5 counterexample to `end_time > start_time`: the fetch fails at second
50 (opening the outage) and `stop()` runs within the same second, so the
shutdown row is closed with `end_time = start_time` and duration 0. -/
theorem outage_end_eq_start_counterexample :
    (runCollector initialCollectorState
      [CollectorEvent.tick 50 none false, CollectorEvent.stop 50]).db_outages =
      [{ start_time := 50, end_time := some 50, duration_seconds := some 0,
         reason := "System shutdown" }] := by
  decide

/-- C5 (amended): along every time-monotone sequence of collector events,
every outage row the collector inserts is already closed (so at most one —
in fact zero — open row ever exists), `start_time ≤ end_time`, and
`duration_seconds = end_time - start_time` exactly;
`end_time > start_time` can fail only when `stop` lands in the same second
the outage began. -/
theorem collector_outage_invariant (events : List CollectorEvent)
    (h : timesFrom 0 events) :
    (((runCollector initialCollectorState events).db_outages.filter
        (fun r => decide (r.end_time = none))).length ≤ 1) ∧
    ∀ r ∈ (runCollector initialCollectorState events).db_outages,
      r.end_time ≠ none ∧ ∀ e, r.end_time = some e →
        r.start_time ≤ e ∧ r.duration_seconds = some ((e : ℤ) - (r.start_time : ℤ)) := by
  have hrows := runCollector_inv events initialCollectorState 0 h
    (by intro u hu; cases hu) (by intro r hr; cases hr)
  constructor
  · have hnil : ((runCollector initialCollectorState events).db_outages.filter
        (fun r => decide (r.end_time = none))) = [] := by
      apply List.filter_eq_nil_iff.mpr
      intro r hr
      simpa using (hrows r hr).1
    rw [hnil]
    decide
  · exact hrows

/-- Witness for C5 (amended): a concrete monotone run with one failure
tick and a later stop. -/
theorem collector_outage_invariant_witness :
    timesFrom 0 [CollectorEvent.tick 10 none false, CollectorEvent.stop 25] ∧
    (((runCollector initialCollectorState
        [CollectorEvent.tick 10 none false, CollectorEvent.stop 25]).db_outages.filter
        (fun r => decide (r.end_time = none))).length ≤ 1) ∧
    ∀ r ∈ (runCollector initialCollectorState
        [CollectorEvent.tick 10 none false, CollectorEvent.stop 25]).db_outages,
      r.end_time ≠ none := by
  have h : timesFrom 0 [CollectorEvent.tick 10 none false, CollectorEvent.stop 25] := by
    simp [timesFrom, CollectorEvent.time]
  have h2 := collector_outage_invariant
    [CollectorEvent.tick 10 none false, CollectorEvent.stop 25] h
  exact ⟨h, h2.1, fun r hr => (h2.2 r hr).1⟩

end Starlink
